import Mathlib

/-!
# Verification of the molecule structure service

A shallow embedding of the molecule CRUD / substructure-search service
(`src/molecules/service.py`, `src/models.py`) together with proofs about it.

The service orchestrates a record store of `Molecule` records, a structural
validator (an external chemistry library: `parse` / `HasSubstructMatch`), and
a CSV ingestion pipeline.  The store and the chemistry library are modelled
as explicit state passing and an abstract `ChemLib` capability respectively;
every service operation becomes a pure function
`ServiceState → Except ServiceError (result × ServiceState)`.
-/

/-- A persisted molecule record, from `src/models.py` (`class Molecule`):
fields `molecule_id` (assigned from the class-level counter), `smiles`,
`molecule_name`, `description`. -/
structure Molecule where
  molecule_id : Nat
  smiles : String
  molecule_name : Option String
  description : Option String
  deriving DecidableEq

/-- Modelled from the spec: `MoleculeRequest` (the schema module is not in the
sources) carries the insert/update payload: a `smiles` string plus optional
`name` and `description`, exactly the mutable fields of a record. -/
structure MoleculeRequest where
  smiles : String
  name : Option String
  description : Option String
  deriving DecidableEq

/-- The state of the record store plus the id counter.  `records` is the
backing collection in insertion order; `next_id` is the class-level
auto-increment counter `Molecule.__next_id` from `src/models.py`, which starts
at `0` in a fresh process. -/
structure ServiceState where
  records : List Molecule
  next_id : Nat
  deriving DecidableEq

/-- The empty store of a fresh process: no records, id counter at `0`
(`Molecule.__next_id = 0` in `src/models.py`). -/
def initialState : ServiceState := ⟨[], 0⟩

/-- The typed failures of the service, from `src/exception.py` /
`src/molecules/exception.py` as raised in `src/molecules/service.py`. -/
inductive ServiceError where
  | unknownIdentifier : Nat → ServiceError
  | duplicateSmiles : String → ServiceError
  | invalidSmiles : String → ServiceError
  | invalidCsvHeaderColumns : List String → ServiceError
  deriving DecidableEq

/-- Modelled from the spec: the Structural Validator and containment matcher
(`src/molecules/utils.py` wrapping the chemistry library is not in the
sources).  `parse` turns a smiles string into a structural handle or rejects
it; `hasSubstructMatch a b` is the asymmetric containment test
`a.HasSubstructMatch(b)`: "`a` contains `b` as a substructure". -/
structure ChemLib where
  Mol : Type
  parse : String → Option Mol
  hasSubstructMatch : Mol → Mol → Bool

/-- Modelled from the spec: `is_valid_smiles` (from `src/molecules/utils.py`,
not in the sources) is the boolean form of the validator: true iff the string
parses. -/
def ChemLib.is_valid_smiles (chem : ChemLib) (s : String) : Bool :=
  (chem.parse s).isSome

namespace MoleculeRepository

/-- Modelled from the spec: `MoleculeRepository.find_by_id` (the repository
module is not in the sources): point lookup by id, empty result on a miss. -/
def find_by_id (s : ServiceState) (obj_id : Nat) : Option Molecule :=
  s.records.find? (fun m => m.molecule_id == obj_id)

/-- Modelled from the spec: `MoleculeRepository.filter(smiles=...)` (the
repository module is not in the sources): all records whose `smiles` field
equals the given string, in insertion order. -/
def filterBySmiles (s : ServiceState) (smiles : String) : List Molecule :=
  s.records.filter (fun m => m.smiles == smiles)

/-- Modelled from the spec: `MoleculeRepository.find_all(page, page_size)`
(the repository module is not in the sources): zero-indexed page of the
insertion-ordered records. -/
def find_all_paged (s : ServiceState) (page page_size : Nat) : List Molecule :=
  (s.records.drop (page * page_size)).take page_size

/-- Modelled from the spec: the unpaginated `MoleculeRepository.find_all`
variant used by the substructure scans: the full insertion-ordered store. -/
def find_all (s : ServiceState) : List Molecule :=
  s.records

/-- Modelled from the spec: `MoleculeRepository.save` (the repository module
is not in the sources): build a `Molecule` from the request — which assigns
the fresh id `next_id` via `Molecule.__init__` in `src/models.py` and bumps
the counter — and append it to the store. -/
def save (s : ServiceState) (req : MoleculeRequest) : Molecule × ServiceState :=
  let m : Molecule := ⟨s.next_id, req.smiles, req.name, req.description⟩
  (m, ⟨s.records ++ [m], s.next_id + 1⟩)

/-- Modelled from the spec: `MoleculeRepository.update` (the repository module
is not in the sources): full replacement of the mutable fields of the record
with the given id; the id itself is immutable. -/
def update (s : ServiceState) (obj_id : Nat) (req : MoleculeRequest) :
    Molecule × ServiceState :=
  let updated : Molecule := ⟨obj_id, req.smiles, req.name, req.description⟩
  (updated,
   ⟨s.records.map (fun m => if m.molecule_id == obj_id then updated else m),
    s.next_id⟩)

/-- Modelled from the spec: `MoleculeRepository.delete` (the repository module
is not in the sources): remove the record with the given id, returning whether
one existed. -/
def delete (s : ServiceState) (obj_id : Nat) : Bool × ServiceState :=
  (s.records.any (fun m => m.molecule_id == obj_id),
   ⟨s.records.filter (fun m => !(m.molecule_id == obj_id)), s.next_id⟩)

end MoleculeRepository

namespace MoleculeService

/-- `MoleculeService.exists_by_id` (`service.py` lines 31–38). -/
def exists_by_id (s : ServiceState) (obj_id : Nat) : Bool :=
  (MoleculeRepository.find_by_id s obj_id).isSome

/-- `MoleculeService.find_by_id` (`service.py` lines 40–53): the two-call
existence-check-then-fetch pattern; fails with `UnknownIdentifier` on a miss.
The store is returned unchanged: the body performs no repository mutation. -/
def find_by_id (s : ServiceState) (obj_id : Nat) :
    Except ServiceError (Molecule × ServiceState) :=
  if !(exists_by_id s obj_id) then
    .error (.unknownIdentifier obj_id)
  else
    match MoleculeRepository.find_by_id s obj_id with
    | some m => .ok (m, s)
    | none => .error (.unknownIdentifier obj_id)

/-- `MoleculeService.save` (`service.py` lines 55–69): duplicate check by
exact-string `filter` equality, then insert.  No smiles-syntax validation. -/
def save (s : ServiceState) (req : MoleculeRequest) :
    Except ServiceError (Molecule × ServiceState) :=
  if (MoleculeRepository.filterBySmiles s req.smiles).length > 0 then
    .error (.duplicateSmiles req.smiles)
  else
    .ok (MoleculeRepository.save s req)

/-- `MoleculeService.update` (`service.py` lines 71–94): existence check, then
the duplicate check `len(same_smiles) > 0 and same_smiles[0].molecule_id !=
obj_id` on the first record holding the requested smiles, then full-replacement
update.  No smiles-syntax validation. -/
def update (s : ServiceState) (obj_id : Nat) (req : MoleculeRequest) :
    Except ServiceError (Molecule × ServiceState) :=
  if !(exists_by_id s obj_id) then
    .error (.unknownIdentifier obj_id)
  else
    let same_smiles := MoleculeRepository.filterBySmiles s req.smiles
    let isDup : Bool :=
      match same_smiles.head? with
      | some m0 => !(m0.molecule_id == obj_id)
      | none => false
    if isDup then
      .error (.duplicateSmiles req.smiles)
    else
      .ok (MoleculeRepository.update s obj_id req)

/-- `MoleculeService.find_all` (`service.py` lines 96–108): a page of records
(defaults `page=0`, `page_size=1000` at the call sites); never fails, and the
store is returned unchanged. -/
def find_all (s : ServiceState) (page page_size : Nat) :
    Except ServiceError (List Molecule × ServiceState) :=
  .ok (MoleculeRepository.find_all_paged s page page_size, s)

/-- `MoleculeService.delete` (`service.py` lines 110–121): existence check then
repository delete. -/
def delete (s : ServiceState) (obj_id : Nat) :
    Except ServiceError (Bool × ServiceState) :=
  if !(exists_by_id s obj_id) then
    .error (.unknownIdentifier obj_id)
  else
    .ok (MoleculeRepository.delete s obj_id)

/-- The per-record loop body shared by the two substructure scans
(`service.py` lines 136–138 and 154–156): parse each stored record
(`molecule.to_chem()`; modelled from the spec: `to_chem` lives in the absent
repository model module and parses the stored smiles, raising
`InvalidSmilesException` if it cannot), keep the records passing `test`, in
insertion order. -/
def scanMatches (chem : ChemLib) (test : chem.Mol → Bool) :
    List Molecule → Except ServiceError (List Molecule)
  | [] => .ok []
  | m :: rest =>
    match chem.parse m.smiles with
    | none => .error (.invalidSmiles m.smiles)
    | some rm =>
      match scanMatches chem test rest with
      | .error e => .error e
      | .ok tail => .ok (if test rm then m :: tail else tail)

/-- `MoleculeService.get_substructures` (`service.py` lines 123–140): parse the
query once (`InvalidSmilesException` on rejection), scan the entire store
unpaginated, and keep every record with `mol.HasSubstructMatch(stored)` — the
query structure contains the stored structure. -/
def get_substructures (chem : ChemLib) (s : ServiceState) (smiles : String) :
    Except ServiceError (List Molecule × ServiceState) :=
  match chem.parse smiles with
  | none => .error (.invalidSmiles smiles)
  | some mol =>
    match scanMatches chem (fun rm => chem.hasSubstructMatch mol rm)
        (MoleculeRepository.find_all s) with
    | .error e => .error e
    | .ok found => .ok (found, s)

/-- `MoleculeService.get_is_substructure_of` (`service.py` lines 142–157): the
inverse scan, keeping every record with `stored.HasSubstructMatch(mol)` — the
stored structure contains the query structure. -/
def get_is_substructure_of (chem : ChemLib) (s : ServiceState) (smiles : String) :
    Except ServiceError (List Molecule × ServiceState) :=
  match chem.parse smiles with
  | none => .error (.invalidSmiles smiles)
  | some mol =>
    match scanMatches chem (fun rm => chem.hasSubstructMatch rm mol)
        (MoleculeRepository.find_all s) with
    | .error e => .error e
    | .ok found => .ok (found, s)

/-- A CSV data row as produced by `csv.DictReader` for the two required
columns: the values under `smiles` and `name`. -/
structure CsvRow where
  smiles : String
  name : String
  deriving DecidableEq

/-- `MoleculeService.required_columns` (`service.py` line 25):
`{"smiles", "name"}`. -/
def required_columns : List String := ["smiles", "name"]

/-- `MoleculeService.__validate_csv_header_columns` (`service.py` lines
193–202) computes `required_columns - columns`: the required column names not
present in the header, order-independent exact-string membership. -/
def missingColumns (header : List String) : List String :=
  required_columns.filter (fun c => !(header.contains c))

/-- The body of the per-row loop of `MoleculeService.process_csv_file`
(`service.py` lines 180–184): raise `InvalidSmilesException` if the row's
smiles does not validate, otherwise attempt `save`. -/
def processRow (chem : ChemLib) (s : ServiceState) (row : CsvRow) :
    Except ServiceError (Molecule × ServiceState) :=
  if chem.is_valid_smiles row.smiles then
    save s ⟨row.smiles, some row.name, none⟩
  else
    .error (.invalidSmiles row.smiles)

/-- The per-row loop of `MoleculeService.process_csv_file` (`service.py` lines
177–191): any exception is caught for one row only and the loop continues.
Returns the count of successfully created rows and the final store. -/
def processRows (chem : ChemLib) : ServiceState → List CsvRow → Nat × ServiceState
  | s, [] => (0, s)
  | s, row :: rest =>
    match processRow chem s row with
    | .ok (_, s1) => ((processRows chem s1 rest).1 + 1, (processRows chem s1 rest).2)
    | .error _ => processRows chem s rest

/-- `MoleculeService.process_csv_file` (`service.py` lines 159–191): validate
the header columns first — `InvalidCsvHeaderColumnsException` with the missing
columns aborts the whole import before any row — then run the per-row loop. -/
def process_csv_file (chem : ChemLib) (s : ServiceState)
    (header : List String) (rows : List CsvRow) :
    Except ServiceError (Nat × ServiceState) :=
  if missingColumns header ≠ [] then
    .error (.invalidCsvHeaderColumns (missingColumns header))
  else
    .ok (processRows chem s rows)

/-- The record-level filter the scans compute: the stored record parses and its
handle passes `test`.  (In a store satisfying the all-records-parse invariant
the `none` branch is unreachable.) -/
def storedMatches (chem : ChemLib) (test : chem.Mol → Bool) (r : Molecule) : Bool :=
  match chem.parse r.smiles with
  | some rm => test rm
  | none => false

/-- The store after one `create` call, successful or not: on success the new
state, on failure (duplicate) the store is untouched. -/
def afterCreate (s : ServiceState) (req : MoleculeRequest) : ServiceState :=
  match save s req with
  | .ok (_, s1) => s1
  | .error _ => s

end MoleculeService

/-- The result set that the spec sentence for `findSubstructureMatches`
literally describes (for refinement comparison with `get_substructures`, which
is translated from the source): the stored records `r` such that
`stored.contains(query)` is false AND `query.contains(stored)` is true. -/
def specSubstructureMatches (chem : ChemLib) (query : chem.Mol)
    (s : ServiceState) : List Molecule :=
  s.records.filter (fun r =>
    match chem.parse r.smiles with
    | some rm => !(chem.hasSubstructMatch rm query) && chem.hasSubstructMatch query rm
    | none => false)

/-- `startsWithSeq p l`: the character list `p` is an initial segment of `l`.
Part of the concrete chemistry instantiation used for witnesses. -/
def startsWithSeq : List Char → List Char → Bool
  | [], _ => true
  | _ :: _, [] => false
  | a :: as, b :: bs => a == b && startsWithSeq as bs

/-- `containsSeq p l`: the character list `p` occurs contiguously inside `l`. -/
def containsSeq (p : List Char) : List Char → Bool
  | [] => p.isEmpty
  | c :: rest => startsWithSeq p (c :: rest) || containsSeq p rest

/-- A concrete, executable instantiation of the abstract `ChemLib` capability,
used to evaluate the service at concrete inputs: a handle is the string
itself, a string containing `?` (or empty) is rejected by the validator, and
containment is contiguous-substring occurrence — asymmetric and reflexive,
as the spec requires of the external matcher. -/
def testChem : ChemLib where
  Mol := String
  parse s := if s.isEmpty || s.toList.contains '?' then none else some s
  hasSubstructMatch a b := containsSeq b.toList a.toList

/-- The aspirin smiles string used by the spec's worked example. -/
def aspirinSmiles : String := "O=C(C)Oc1ccccc1C(=O)O"

/-! ## Helper lemmas -/

theorem scanMatches_eq_filter (chem : ChemLib) (test : chem.Mol → Bool)
    (l : List Molecule) (h : ∀ r ∈ l, (chem.parse r.smiles).isSome) :
    MoleculeService.scanMatches chem test l =
      .ok (l.filter (MoleculeService.storedMatches chem test)) := by
  induction l with
  | nil => rfl
  | cons m rest ih =>
    obtain ⟨rm, hrm⟩ := Option.isSome_iff_exists.mp (h m (List.mem_cons_self m rest))
    have hrest : ∀ r ∈ rest, (chem.parse r.smiles).isSome :=
      fun r hr => h r (List.mem_cons_of_mem m hr)
    simp only [MoleculeService.scanMatches, hrm, ih hrest, List.filter_cons,
      MoleculeService.storedMatches]

theorem get_substructures_eq (chem : ChemLib) (s : ServiceState) (q : String)
    (mol : chem.Mol) (hq : chem.parse q = some mol)
    (h : ∀ r ∈ s.records, (chem.parse r.smiles).isSome) :
    MoleculeService.get_substructures chem s q =
      .ok (s.records.filter (MoleculeService.storedMatches chem
        (fun rm => chem.hasSubstructMatch mol rm)), s) := by
  simp [MoleculeService.get_substructures, hq, MoleculeRepository.find_all,
    scanMatches_eq_filter chem _ _ h]

theorem get_is_substructure_of_eq (chem : ChemLib) (s : ServiceState) (q : String)
    (mol : chem.Mol) (hq : chem.parse q = some mol)
    (h : ∀ r ∈ s.records, (chem.parse r.smiles).isSome) :
    MoleculeService.get_is_substructure_of chem s q =
      .ok (s.records.filter (MoleculeService.storedMatches chem
        (fun rm => chem.hasSubstructMatch rm mol)), s) := by
  simp [MoleculeService.get_is_substructure_of, hq, MoleculeRepository.find_all,
    scanMatches_eq_filter chem _ _ h]

theorem filterBySmiles_pos_iff (s : ServiceState) (q : String) :
    0 < (MoleculeRepository.filterBySmiles s q).length ↔
      ∃ r ∈ s.records, r.smiles = q := by
  simp only [MoleculeRepository.filterBySmiles, List.length_pos, Ne,
    List.filter_eq_nil_iff]
  push_neg
  simp [beq_iff_eq]

theorem exists_by_id_iff (s : ServiceState) (obj_id : Nat) :
    MoleculeService.exists_by_id s obj_id = true ↔
      ∃ r ∈ s.records, r.molecule_id = obj_id := by
  simp [MoleculeService.exists_by_id, MoleculeRepository.find_by_id,
    List.find?_isSome, beq_iff_eq]

/-! ## Claim C1 -/

/-- **C1, counterexample.**  The claim requires the result set of
`findSubstructureMatches` to exclude records with `stored.contains(query)`
true (`specSubstructureMatches` renders the claim's filter literally), but on
a store holding a record with the very query smiles the code returns that
record even though the stored structure contains the query: the code's result
differs from the claim's. -/
theorem C1_counterexample :
    MoleculeService.get_substructures testChem ⟨[⟨0, "C", none, none⟩], 1⟩ "C" =
      .ok ([⟨0, "C", none, none⟩], ⟨[⟨0, "C", none, none⟩], 1⟩) ∧
    testChem.parse "C" = some "C" ∧
    testChem.hasSubstructMatch ("C" : String) ("C" : String) = true ∧
    specSubstructureMatches testChem ("C" : String) ⟨[⟨0, "C", none, none⟩], 1⟩ =
      [] :=
  ⟨rfl, rfl, rfl, rfl⟩

/-- **C1 (amended).**  For every notation string accepted by the validator,
`findSubstructureMatches` scans the entire store in insertion order and
returns exactly the records whose parsed structure is contained in the query
structure — `query.contains(stored)` true, with no condition on the reverse
direction — provided every stored record parses; for every rejected string it
fails with `InvalidNotation`. -/
theorem C1_find_substructure_matches (chem : ChemLib) (s : ServiceState)
    (q : String) (hstored : ∀ r ∈ s.records, (chem.parse r.smiles).isSome) :
    (chem.parse q = none →
      MoleculeService.get_substructures chem s q =
        .error (.invalidSmiles q)) ∧
    (∀ mol, chem.parse q = some mol →
      MoleculeService.get_substructures chem s q =
        .ok (s.records.filter (MoleculeService.storedMatches chem
          (fun rm => chem.hasSubstructMatch mol rm)), s)) := by
  constructor
  · intro hq
    simp [MoleculeService.get_substructures, hq]
  · intro mol hq
    exact get_substructures_eq chem s q mol hq hstored

/-- Witness for C1: on a one-record store the search with query `"CO"`
returns the stored `"C"` record. -/
theorem C1_find_substructure_matches_witness :
    MoleculeService.get_substructures testChem ⟨[⟨0, "C", none, none⟩], 1⟩ "CO" =
      .ok ([⟨0, "C", none, none⟩], ⟨[⟨0, "C", none, none⟩], 1⟩) :=
  ((C1_find_substructure_matches testChem ⟨[⟨0, "C", none, none⟩], 1⟩ "CO"
    (by decide)).2 ("CO" : String) rfl).trans rfl

/-! ## Claim C2 -/

/-- **C2, counterexample.**  `create` performs no notation-syntax validation:
starting from the empty store, creating a record whose smiles the validator
rejects succeeds and persists it, so a reachable state holds a record with an
invalid notation. -/
theorem C2_counterexample :
    testChem.is_valid_smiles "?" = false ∧
    MoleculeService.save initialState ⟨"?", some "junk", none⟩ =
      .ok (⟨0, "?", some "junk", none⟩, ⟨[⟨0, "?", some "junk", none⟩], 1⟩) :=
  ⟨rfl, rfl⟩

/-- **C2 (amended).**  Only the ingestion pipeline validates notation syntax:
`importBatch` never persists a record with an invalid notation (if every
record of the store validates, that still holds after the row loop), while
`create` — and hence `update` — persists without any syntax check. -/
theorem C2_import_batch_validity (chem : ChemLib) (s : ServiceState)
    (rows : List MoleculeService.CsvRow)
    (h : ∀ r ∈ s.records, chem.is_valid_smiles r.smiles = true) :
    ∀ r ∈ (MoleculeService.processRows chem s rows).2.records,
      chem.is_valid_smiles r.smiles = true := by
  induction rows generalizing s with
  | nil => simpa [MoleculeService.processRows] using h
  | cons row rest ih =>
    by_cases hv : chem.is_valid_smiles row.smiles = true
    · by_cases hdup :
        0 < (MoleculeRepository.filterBySmiles s row.smiles).length
      · simp only [MoleculeService.processRows, MoleculeService.processRow, hv,
          if_true, MoleculeService.save, hdup]
        exact ih s h
      · simp only [MoleculeService.processRows, MoleculeService.processRow, hv,
          if_true, MoleculeService.save, hdup, if_false]
        apply ih
        intro r hr
        have hr3 : r ∈ s.records ∨
            r = ⟨s.next_id, row.smiles, some row.name, none⟩ := by
          simpa [MoleculeRepository.save] using hr
        rcases hr3 with hl | rfl
        · exact h r hl
        · exact hv
    · simp only [MoleculeService.processRows, MoleculeService.processRow, hv,
        if_false]
      exact ih s h

/-! ## Claim C3 -/

/-- **C3, counterexample.**  The claim says the first record created from an
empty store gets id `1`; the class-level counter `Molecule.__next_id` in
`src/models.py` starts at `0`, so the first record's id is `0`, not `1`. -/
theorem C3_counterexample :
    (MoleculeService.save initialState
        ⟨aspirinSmiles, some "Aspirin", none⟩).map (fun p => p.1.molecule_id) =
      .ok 0 ∧ (0 : Nat) ≠ 1 :=
  ⟨rfl, by decide⟩

/-- **C3 (amended).**  Starting from the empty store,
`create("O=C(C)Oc1ccccc1C(=O)O", "Aspirin")` succeeds and the returned record
has id `0` (the counter starts at `0`), and a subsequent
`findSubstructureMatches` with the identical notation returns exactly that
record — a structure contains itself (the containment test is assumed
reflexive at the parsed handle). -/
theorem C3_create_then_self_search (chem : ChemLib) (mol : chem.Mol)
    (hparse : chem.parse aspirinSmiles = some mol)
    (hrefl : chem.hasSubstructMatch mol mol = true) :
    MoleculeService.save initialState ⟨aspirinSmiles, some "Aspirin", none⟩ =
      .ok (⟨0, aspirinSmiles, some "Aspirin", none⟩,
           ⟨[⟨0, aspirinSmiles, some "Aspirin", none⟩], 1⟩) ∧
    MoleculeService.get_substructures chem
        ⟨[⟨0, aspirinSmiles, some "Aspirin", none⟩], 1⟩ aspirinSmiles =
      .ok ([⟨0, aspirinSmiles, some "Aspirin", none⟩],
           ⟨[⟨0, aspirinSmiles, some "Aspirin", none⟩], 1⟩) := by
  refine ⟨rfl, ?_⟩
  have hstored : ∀ r ∈ (⟨[⟨0, aspirinSmiles, some "Aspirin", none⟩], 1⟩ :
      ServiceState).records, (chem.parse r.smiles).isSome := by
    intro r hr
    have : r = ⟨0, aspirinSmiles, some "Aspirin", none⟩ := by simpa using hr
    rw [this]
    simp [hparse]
  rw [get_substructures_eq chem _ aspirinSmiles mol hparse hstored]
  simp [MoleculeService.storedMatches, hparse, hrefl]

/-- Witness for C3 at the concrete chemistry instantiation. -/
theorem C3_create_then_self_search_witness :
    MoleculeService.save initialState ⟨aspirinSmiles, some "Aspirin", none⟩ =
      .ok (⟨0, aspirinSmiles, some "Aspirin", none⟩,
           ⟨[⟨0, aspirinSmiles, some "Aspirin", none⟩], 1⟩) ∧
    MoleculeService.get_substructures testChem
        ⟨[⟨0, aspirinSmiles, some "Aspirin", none⟩], 1⟩ aspirinSmiles =
      .ok ([⟨0, aspirinSmiles, some "Aspirin", none⟩],
           ⟨[⟨0, aspirinSmiles, some "Aspirin", none⟩], 1⟩) :=
  C3_create_then_self_search testChem (aspirinSmiles : String) rfl rfl

/-! ## Claim C4 -/

theorem processRows_length (chem : ChemLib) (rows : List MoleculeService.CsvRow) :
    ∀ s : ServiceState,
      (MoleculeService.processRows chem s rows).2.records.length =
        s.records.length + (MoleculeService.processRows chem s rows).1 := by
  induction rows with
  | nil => intro s; simp [MoleculeService.processRows]
  | cons row rest ih =>
    intro s
    by_cases hv : chem.is_valid_smiles row.smiles = true
    · by_cases hdup :
        0 < (MoleculeRepository.filterBySmiles s row.smiles).length
      · simp only [MoleculeService.processRows, MoleculeService.processRow, hv,
          if_true, MoleculeService.save, hdup]
        exact ih s
      · simp only [MoleculeService.processRows, MoleculeService.processRow, hv,
          if_true, MoleculeService.save, hdup, if_false]
        rw [ih]
        simp [MoleculeRepository.save]
        omega
    · simp only [MoleculeService.processRows, MoleculeService.processRow, hv,
        if_false]
      exact ih s

/-- **C4.**  When the header holds the required columns, `importBatch`
processes the rows independently of one another (a row with an invalid
notation or a failing `create` — e.g. a duplicate — is skipped and the loop
continues); the returned count equals the number of records the store gained;
on the spec's example batch — one unparsable-notation row, one valid row —
the count is `1` and exactly one record is added; and a duplicate row is
skipped without aborting the rows after it. -/
theorem C4_import_batch_per_row (chem : ChemLib) (s : ServiceState)
    (header : List String) (rows : List MoleculeService.CsvRow)
    (h : MoleculeService.missingColumns header = []) :
    MoleculeService.process_csv_file chem s header rows =
      .ok (MoleculeService.processRows chem s rows) ∧
    (MoleculeService.processRows chem s rows).2.records.length =
      s.records.length + (MoleculeService.processRows chem s rows).1 ∧
    MoleculeService.process_csv_file testChem initialState ["smiles", "name"]
        [⟨"?", "bad"⟩, ⟨"C", "methane"⟩] =
      .ok (1, ⟨[⟨0, "C", some "methane", none⟩], 1⟩) ∧
    MoleculeService.process_csv_file testChem initialState ["name", "smiles"]
        [⟨"C", "a"⟩, ⟨"C", "b"⟩, ⟨"N", "c"⟩] =
      .ok (2, ⟨[⟨0, "C", some "a", none⟩, ⟨1, "N", some "c", none⟩], 2⟩) := by
  refine ⟨?_, processRows_length chem rows s, rfl, rfl⟩
  simp [MoleculeService.process_csv_file, h]

/-- Witness for C4: the spec's example batch, via the theorem. -/
theorem C4_import_batch_per_row_witness :
    MoleculeService.process_csv_file testChem initialState ["smiles", "name"]
        [⟨"?", "bad"⟩, ⟨"C", "methane"⟩] =
      .ok (1, ⟨[⟨0, "C", some "methane", none⟩], 1⟩) :=
  (C4_import_batch_per_row testChem initialState ["smiles", "name"]
    [⟨"?", "bad"⟩, ⟨"C", "methane"⟩] rfl).2.2.1

/-! ## Claim C5 -/

/-- **C5.**  If any required column is missing from the header (membership is
order-independent exact-string matching), `importBatch` fails with
`InvalidHeaderColumns` listing the missing columns; the result does not depend
on the data rows at all — the failure happens before any row is processed —
so the store gains no record. -/
theorem C5_invalid_header (chem : ChemLib) (s : ServiceState)
    (header : List String) (rows : List MoleculeService.CsvRow)
    (h : MoleculeService.missingColumns header ≠ []) :
    MoleculeService.process_csv_file chem s header rows =
      .error (.invalidCsvHeaderColumns
        (MoleculeService.missingColumns header)) ∧
    ∀ rows2, MoleculeService.process_csv_file chem s header rows =
      MoleculeService.process_csv_file chem s header rows2 := by
  constructor
  · simp [MoleculeService.process_csv_file, h]
  · intro rows2
    simp [MoleculeService.process_csv_file, h]

/-- Witness for C5: a header missing the `name` column. -/
theorem C5_invalid_header_witness :
    MoleculeService.process_csv_file testChem initialState ["smiles"]
        [⟨"C", "methane"⟩] =
      .error (.invalidCsvHeaderColumns ["name"]) :=
  (C5_invalid_header testChem initialState ["smiles"] [⟨"C", "methane"⟩]
    (by decide)).1

/-! ## Claim C6 -/

/-- **C6.**  `create` fails with `DuplicateNotation` exactly when some
existing record holds a string-equal notation; otherwise it inserts and
returns the freshly built record; and whatever the starting store, calling
`create` twice with the same notation fails the second time with
`DuplicateNotation` (after a successful first call the notation now exists;
after a failed first call it already existed). -/
theorem C6_duplicate_creation (s : ServiceState) (req : MoleculeRequest) :
    (MoleculeService.save s req = .error (.duplicateSmiles req.smiles) ↔
      ∃ r ∈ s.records, r.smiles = req.smiles) ∧
    ((∀ r ∈ s.records, r.smiles ≠ req.smiles) →
      MoleculeService.save s req = .ok (MoleculeRepository.save s req)) ∧
    MoleculeService.save (MoleculeService.afterCreate s req) req =
      .error (.duplicateSmiles req.smiles) := by
  have hmain : ∀ t : ServiceState,
      (MoleculeService.save t req = .error (.duplicateSmiles req.smiles) ↔
        ∃ r ∈ t.records, r.smiles = req.smiles) := by
    intro t
    by_cases hdup : 0 < (MoleculeRepository.filterBySmiles t req.smiles).length
    · simp only [MoleculeService.save, hdup, if_true, true_iff]
      exact (filterBySmiles_pos_iff t req.smiles).mp hdup
    · simp only [MoleculeService.save, hdup, if_false]
      constructor
      · intro hcon
        cases hcon
      · intro hex
        exact absurd ((filterBySmiles_pos_iff t req.smiles).mpr hex) hdup
  refine ⟨hmain s, ?_, ?_⟩
  · intro hnone
    have hdup : ¬ 0 < (MoleculeRepository.filterBySmiles s req.smiles).length := by
      rw [filterBySmiles_pos_iff]
      rintro ⟨r, hr, he⟩
      exact hnone r hr he
    simp [MoleculeService.save, hdup]
  · rw [hmain]
    by_cases hdup : 0 < (MoleculeRepository.filterBySmiles s req.smiles).length
    · have hex := (filterBySmiles_pos_iff s req.smiles).mp hdup
      simpa [MoleculeService.afterCreate, MoleculeService.save, hdup] using hex
    · refine ⟨⟨s.next_id, req.smiles, req.name, req.description⟩, ?_, rfl⟩
      simp [MoleculeService.afterCreate, MoleculeService.save, hdup,
        MoleculeRepository.save]

/-- Witness for C6: a fresh create succeeds and its immediate repetition
fails with the duplicate error. -/
theorem C6_duplicate_creation_witness :
    MoleculeService.save initialState ⟨"C", some "methane", none⟩ =
      .ok (MoleculeRepository.save initialState ⟨"C", some "methane", none⟩) ∧
    MoleculeService.save
        (MoleculeService.afterCreate initialState ⟨"C", some "methane", none⟩)
        ⟨"C", some "methane", none⟩ =
      .error (.duplicateSmiles "C") :=
  ⟨(C6_duplicate_creation initialState ⟨"C", some "methane", none⟩).2.1
      (by simp [initialState]),
   (C6_duplicate_creation initialState ⟨"C", some "methane", none⟩).2.2⟩

/-! ## Claim C7 -/

theorem filterBySmiles_eq_singleton (s : ServiceState) (q : String)
    (huniq : (s.records.map Molecule.smiles).Nodup)
    (r : Molecule) (hr : r ∈ s.records) (hq : r.smiles = q) :
    MoleculeRepository.filterBySmiles s q = [r] := by
  have hnd : s.records.Nodup := huniq.of_map
  have hmem : r ∈ MoleculeRepository.filterBySmiles s q :=
    List.mem_filter.mpr ⟨hr, by simp [hq]⟩
  have hall : ∀ x ∈ MoleculeRepository.filterBySmiles s q, x = r := by
    intro x hx
    have hx' := List.mem_filter.mp hx
    have hxs : x.smiles = q := by simpa using hx'.2
    exact List.inj_on_of_nodup_map huniq hx'.1 hr (by rw [hxs, hq])
  have hfnd : (MoleculeRepository.filterBySmiles s q).Nodup := hnd.filter _
  cases hfl : MoleculeRepository.filterBySmiles s q with
  | nil => rw [hfl] at hmem; cases hmem
  | cons a t =>
    rw [hfl] at hall hfnd
    have ha : a = r := hall a (List.mem_cons_self a t)
    subst ha
    cases t with
    | nil => rfl
    | cons b t2 =>
      have hb : b = a := hall b (by simp)
      rcases List.nodup_cons.mp hfnd with ⟨hna, _⟩
      exact absurd (by rw [hb]; exact List.mem_cons_self a t2) hna

/-- **C7.**  On a store whose notations are pairwise distinct (the uniqueness
invariant the service maintains), `update(id, notation, ...)` fails with
`UnknownIdentifier` when no record has the id; fails with `DuplicateNotation`
when a record with a different id holds the exact notation; and otherwise —
in particular when the record keeps its own current notation — replaces the
record's mutable fields in full and returns it. -/
theorem C7_update_contract (s : ServiceState) (obj_id : Nat)
    (req : MoleculeRequest)
    (huniq : (s.records.map Molecule.smiles).Nodup) :
    ((∀ r ∈ s.records, r.molecule_id ≠ obj_id) →
      MoleculeService.update s obj_id req =
        .error (.unknownIdentifier obj_id)) ∧
    ((∃ r ∈ s.records, r.molecule_id = obj_id) →
      ((∃ r ∈ s.records, r.smiles = req.smiles ∧ r.molecule_id ≠ obj_id) →
        MoleculeService.update s obj_id req =
          .error (.duplicateSmiles req.smiles)) ∧
      ((∀ r ∈ s.records, r.smiles = req.smiles → r.molecule_id = obj_id) →
        MoleculeService.update s obj_id req =
          .ok (MoleculeRepository.update s obj_id req))) := by
  constructor
  · intro habs
    have hex : MoleculeService.exists_by_id s obj_id = false := by
      rw [← Bool.not_eq_true, exists_by_id_iff]
      rintro ⟨r, hr, hid⟩
      exact habs r hr hid
    simp [MoleculeService.update, hex]
  · intro hex
    have hext : MoleculeService.exists_by_id s obj_id = true :=
      (exists_by_id_iff s obj_id).mpr hex
    constructor
    · rintro ⟨r, hr, hrs, hrid⟩
      have hfl := filterBySmiles_eq_singleton s req.smiles huniq r hr hrs
      have hid : (r.molecule_id == obj_id) = false := by
        simpa using hrid
      simp [MoleculeService.update, hext, hfl, hid]
    · intro hown
      cases hfl : MoleculeRepository.filterBySmiles s req.smiles with
      | nil => simp [MoleculeService.update, hext, hfl]
      | cons m0 t =>
        have hm0 : m0 ∈ MoleculeRepository.filterBySmiles s req.smiles := by
          rw [hfl]; exact List.mem_cons_self m0 t
        have hm0' := List.mem_filter.mp hm0
        have hm0s : m0.smiles = req.smiles := by simpa using hm0'.2
        have hm0id : m0.molecule_id = obj_id := hown m0 hm0'.1 hm0s
        simp [MoleculeService.update, hext, hfl, hm0id]

/-- Witness for C7 on a concrete two-record store: updating record `1` to the
notation held by record `0` is rejected as a duplicate, while updating record
`1` keeping its own notation succeeds with fields fully replaced. -/
theorem C7_update_contract_witness :
    MoleculeService.update ⟨[⟨0, "C", none, none⟩, ⟨1, "CO", none, none⟩], 2⟩
        1 ⟨"C", some "x", none⟩ =
      .error (.duplicateSmiles "C") ∧
    MoleculeService.update ⟨[⟨0, "C", none, none⟩, ⟨1, "CO", none, none⟩], 2⟩
        1 ⟨"CO", some "x", none⟩ =
      .ok (MoleculeRepository.update
        ⟨[⟨0, "C", none, none⟩, ⟨1, "CO", none, none⟩], 2⟩ 1
        ⟨"CO", some "x", none⟩) :=
  ⟨((C7_update_contract ⟨[⟨0, "C", none, none⟩, ⟨1, "CO", none, none⟩], 2⟩
        1 ⟨"C", some "x", none⟩ (by decide)).2
      (by exact ⟨⟨1, "CO", none, none⟩, by simp, rfl⟩)).1
      ⟨⟨0, "C", none, none⟩, by simp, rfl, by decide⟩,
   ((C7_update_contract ⟨[⟨0, "C", none, none⟩, ⟨1, "CO", none, none⟩], 2⟩
        1 ⟨"CO", some "x", none⟩ (by decide)).2
      (by exact ⟨⟨1, "CO", none, none⟩, by simp, rfl⟩)).2
      (by decide)⟩

/-! ## Claim C8 -/

/-- **C8.**  Containment asymmetry.  Given a stored record for pattern `P` and
one for target `T` such that `T`'s structure contains `P`'s but not
conversely (and every stored record parses, so the scans complete):
`findSubstructureMatches(T)` includes the record for `P`,
`findContainerMatches(P)` includes the record for `T`, and
`findSubstructureMatches(P)` does not include the record for `T`. -/
theorem C8_containment_asymmetry (chem : ChemLib) (s : ServiceState)
    (recP recT : Molecule) (hP : recP ∈ s.records) (hT : recT ∈ s.records)
    (mp mt : chem.Mol)
    (hpp : chem.parse recP.smiles = some mp)
    (hpt : chem.parse recT.smiles = some mt)
    (hstored : ∀ r ∈ s.records, (chem.parse r.smiles).isSome)
    (hPinT : chem.hasSubstructMatch mt mp = true)
    (hTnotinP : chem.hasSubstructMatch mp mt = false) :
    (∃ l, MoleculeService.get_substructures chem s recT.smiles = .ok (l, s) ∧
      recP ∈ l) ∧
    (∃ l, MoleculeService.get_is_substructure_of chem s recP.smiles =
      .ok (l, s) ∧ recT ∈ l) ∧
    (∀ l, MoleculeService.get_substructures chem s recP.smiles = .ok (l, s) →
      recT ∉ l) := by
  refine ⟨?_, ?_, ?_⟩
  · refine ⟨_, get_substructures_eq chem s recT.smiles mt hpt hstored, ?_⟩
    exact List.mem_filter.mpr ⟨hP, by
      simp [MoleculeService.storedMatches, hpp, hPinT]⟩
  · refine ⟨_, get_is_substructure_of_eq chem s recP.smiles mp hpp hstored, ?_⟩
    exact List.mem_filter.mpr ⟨hT, by
      simp [MoleculeService.storedMatches, hpt, hPinT]⟩
  · intro l hl hTl
    rw [get_substructures_eq chem s recP.smiles mp hpp hstored] at hl
    have hleq : l = s.records.filter (MoleculeService.storedMatches chem
        (fun rm => chem.hasSubstructMatch mp rm)) := by
      simpa using hl.symm
    rw [hleq] at hTl
    have := (List.mem_filter.mp hTl).2
    rw [MoleculeService.storedMatches, hpt] at this
    simp [hTnotinP] at this

/-- Witness for C8: `P = "C"` contained in `T = "CO"` but not conversely, in
a concrete two-record store. -/
theorem C8_containment_asymmetry_witness :
    (∃ l, MoleculeService.get_substructures testChem
        ⟨[⟨0, "C", none, none⟩, ⟨1, "CO", none, none⟩], 2⟩ "CO" = .ok (l,
          ⟨[⟨0, "C", none, none⟩, ⟨1, "CO", none, none⟩], 2⟩) ∧
      (⟨0, "C", none, none⟩ : Molecule) ∈ l) ∧
    (∃ l, MoleculeService.get_is_substructure_of testChem
        ⟨[⟨0, "C", none, none⟩, ⟨1, "CO", none, none⟩], 2⟩ "C" = .ok (l,
          ⟨[⟨0, "C", none, none⟩, ⟨1, "CO", none, none⟩], 2⟩) ∧
      (⟨1, "CO", none, none⟩ : Molecule) ∈ l) ∧
    (∀ l, MoleculeService.get_substructures testChem
        ⟨[⟨0, "C", none, none⟩, ⟨1, "CO", none, none⟩], 2⟩ "C" = .ok (l,
          ⟨[⟨0, "C", none, none⟩, ⟨1, "CO", none, none⟩], 2⟩) →
      (⟨1, "CO", none, none⟩ : Molecule) ∉ l) :=
  C8_containment_asymmetry testChem
    ⟨[⟨0, "C", none, none⟩, ⟨1, "CO", none, none⟩], 2⟩
    ⟨0, "C", none, none⟩ ⟨1, "CO", none, none⟩ (by simp) (by simp)
    ("C" : String) ("CO" : String) rfl rfl (by decide) rfl rfl

/-! ## Claim C9 -/

/-- **C9.**  For an id with no record, `findById`, `update` and `delete` each
fail with `UnknownIdentifier(id)`; and after any successful `delete(id)` a
subsequent `findById(id)` fails with `UnknownIdentifier(id)`. -/
theorem C9_unknown_identifier (s : ServiceState) (obj_id : Nat)
    (req : MoleculeRequest) :
    ((∀ r ∈ s.records, r.molecule_id ≠ obj_id) →
      MoleculeService.find_by_id s obj_id =
        .error (.unknownIdentifier obj_id) ∧
      MoleculeService.update s obj_id req =
        .error (.unknownIdentifier obj_id) ∧
      MoleculeService.delete s obj_id =
        .error (.unknownIdentifier obj_id)) ∧
    (∀ b s2, MoleculeService.delete s obj_id = .ok (b, s2) →
      MoleculeService.find_by_id s2 obj_id =
        .error (.unknownIdentifier obj_id)) := by
  constructor
  · intro habs
    have hex : MoleculeService.exists_by_id s obj_id = false := by
      rw [← Bool.not_eq_true, exists_by_id_iff]
      rintro ⟨r, hr, hid⟩
      exact habs r hr hid
    refine ⟨?_, ?_, ?_⟩ <;>
      simp [MoleculeService.find_by_id, MoleculeService.update,
        MoleculeService.delete, hex]
  · intro b s2 hdel
    by_cases hex : MoleculeService.exists_by_id s obj_id = true
    · have hs2 : s2 = ⟨s.records.filter
          (fun m => !(m.molecule_id == obj_id)), s.next_id⟩ := by
        simp only [MoleculeService.delete, hex, Bool.not_true, if_false,
          MoleculeRepository.delete, Bool.false_eq_true,
          Except.ok.injEq, Prod.mk.injEq] at hdel
        exact hdel.2.symm
      have hex2 : MoleculeService.exists_by_id s2 obj_id = false := by
        rw [← Bool.not_eq_true, exists_by_id_iff]
        rintro ⟨r, hr, hid⟩
        rw [hs2] at hr
        have := (List.mem_filter.mp hr).2
        simp [hid] at this
      simp [MoleculeService.find_by_id, hex2]
    · have hexf : MoleculeService.exists_by_id s obj_id = false :=
        Bool.not_eq_true _ ▸ eq_false_of_ne_true hex
      simp [MoleculeService.delete, hexf] at hdel

/-! ## Claim C10 -/

/-- **C10.**  The query operations — `findById`, `findAll` (paginated),
`findSubstructureMatches` and `findContainerMatches` — never modify the
store: whenever one of them succeeds it hands back exactly the state it was
given (and on failure no successor state is produced at all, so the store is
likewise untouched). -/
theorem C10_queries_preserve_store (chem : ChemLib) (s : ServiceState)
    (obj_id page page_size : Nat) (q1 q2 : String) :
    (∀ m s2, MoleculeService.find_by_id s obj_id = .ok (m, s2) → s2 = s) ∧
    (∀ l s2, MoleculeService.find_all s page page_size = .ok (l, s2) →
      s2 = s) ∧
    (∀ l s2, MoleculeService.get_substructures chem s q1 = .ok (l, s2) →
      s2 = s) ∧
    (∀ l s2, MoleculeService.get_is_substructure_of chem s q2 = .ok (l, s2) →
      s2 = s) := by
  refine ⟨?_, ?_, ?_, ?_⟩
  · intro m s2 h
    unfold MoleculeService.find_by_id at h
    split at h
    · cases h
    · split at h
      · simp only [Except.ok.injEq, Prod.mk.injEq] at h
        exact h.2.symm
      · cases h
  · intro l s2 h
    unfold MoleculeService.find_all at h
    simp only [Except.ok.injEq, Prod.mk.injEq] at h
    exact h.2.symm
  · intro l s2 h
    unfold MoleculeService.get_substructures at h
    split at h
    · cases h
    · split at h
      · cases h
      · simp only [Except.ok.injEq, Prod.mk.injEq] at h
        exact h.2.symm
  · intro l s2 h
    unfold MoleculeService.get_is_substructure_of at h
    split at h
    · cases h
    · split at h
      · cases h
      · simp only [Except.ok.injEq, Prod.mk.injEq] at h
        exact h.2.symm

/-- Witness for C10: a concrete successful substructure query on a one-record
store returns that same store. -/
theorem C10_queries_preserve_store_witness :
    (⟨[⟨0, "C", none, none⟩], 1⟩ : ServiceState) =
      (⟨[⟨0, "C", none, none⟩], 1⟩ : ServiceState) :=
  (C10_queries_preserve_store testChem ⟨[⟨0, "C", none, none⟩], 1⟩ 0 0 1000
    "C" "C").2.2.1 [⟨0, "C", none, none⟩] ⟨[⟨0, "C", none, none⟩], 1⟩ rfl

/-- Witness for C2: running the row loop on a valid batch from the empty
store leaves every persisted record with a validator-accepted notation. -/
theorem C2_import_batch_validity_witness :
    testChem.is_valid_smiles
      (⟨0, "C", some "methane", none⟩ : Molecule).smiles = true :=
  C2_import_batch_validity testChem initialState [⟨"C", "methane"⟩]
    (by simp [initialState]) ⟨0, "C", some "methane", none⟩ (by decide)

/-- Witness for C9: id `5` is absent from a one-record store, so the three
operations fail; and deleting the present id `0` makes `findById 0` fail. -/
theorem C9_unknown_identifier_witness :
    (MoleculeService.find_by_id ⟨[⟨0, "C", none, none⟩], 1⟩ 5 =
        .error (.unknownIdentifier 5) ∧
      MoleculeService.update ⟨[⟨0, "C", none, none⟩], 1⟩ 5 ⟨"CO", none, none⟩ =
        .error (.unknownIdentifier 5) ∧
      MoleculeService.delete ⟨[⟨0, "C", none, none⟩], 1⟩ 5 =
        .error (.unknownIdentifier 5)) ∧
    MoleculeService.find_by_id ⟨[], 1⟩ 0 = .error (.unknownIdentifier 0) :=
  ⟨(C9_unknown_identifier ⟨[⟨0, "C", none, none⟩], 1⟩ 5
      ⟨"CO", none, none⟩).1 (by decide),
   (C9_unknown_identifier ⟨[⟨0, "C", none, none⟩], 1⟩ 0
      ⟨"CO", none, none⟩).2 true ⟨[], 1⟩ rfl⟩
